import Mathlib

/-!
Verification of the WhatsApp instance-manager service (whisper-api-baileys).

Shallow embedding of the code in
`src/services/whatsappInstanceManager.service.js`,
`src/core/plugin-manager.core.js` (PluginManager) and
`src/plugins/welcome-group.plugin.js` (debounced welcome batcher),
with theorems settling the specification claims about the connection
lifecycle state machine, webhook delivery, plugin dispatch, the debounced
batch notifier, phone normalization and outbound-send guards.
-/

namespace WhisperApi

/-! ## Connection lifecycle state machine

Embeds the `WhatsAppInstance` runtime state (constructor, lines 20-33) and
the `connection.update` handler registered in `setupEventHandlers`
(lines 96-204).  External effects (persisted status strings, webhook
payloads, the scheduled reconnect timer) are returned explicitly. -/

inductive ConnStatus where
  | disconnected
  | connecting
  | qr_ready
  | connected
  | reconnecting
  | logged_out
  | error
  deriving DecidableEq, Repr

structure InstanceState where
  isConnected : Bool
  connectionStatus : ConnStatus
  qrCode : Option String
  reconnectAttempts : Nat
  maxReconnectAttempts : Nat
  isManualRestart : Bool
  deriving DecidableEq, Repr

/-- The fields set by the `WhatsAppInstance` constructor:
`isConnected = false`, `connectionStatus = 'disconnected'`, `qrCode = null`,
`reconnectAttempts = 0`, `maxReconnectAttempts = 5`,
`isManualRestart = false`. -/
def initialInstanceState : InstanceState :=
  { isConnected := false
    connectionStatus := .disconnected
    qrCode := none
    reconnectAttempts := 0
    maxReconnectAttempts := 5
    isManualRestart := false }

/-- Baileys `DisconnectReason.loggedOut` status code. -/
def DisconnectReasonLoggedOut : Nat := 401

/-- The `connection.update` event payload consumed by the handler:
`{ connection, lastDisconnect, qr }`.  `lastDisconnectStatusCode` models
`lastDisconnect?.error?.output?.statusCode` (absent chain gives `none`). -/
structure ConnectionUpdate where
  connection : Option String
  lastDisconnectStatusCode : Option Nat
  qr : Option String
  deriving DecidableEq, Repr

/-- One `connection.update` webhook payload (the `data` argument of
`triggerWebhooks('connection.update', ...)`); optional fields default to
absent as in the source where they are not passed. -/
structure ConnPayload where
  status : String
  message : String
  qrCode : Option String := none
  reconnectAttempt : Option Nat := none
  maxReconnectAttempts : Option Nat := none
  disconnectReason : Option Nat := none
  wasManualRestart : Option Bool := none
  deriving DecidableEq, Repr

/-- Externally visible effects of one `connection.update` handler run:
statuses passed to `instanceService.updateStatus`, payloads passed to
`triggerWebhooks('connection.update', ...)`, and the delay of a
`setTimeout(() => this.initialize(), ...)` reconnect timer, if scheduled. -/
structure ConnUpdateEffects where
  persistedStatuses : List String
  webhookPayloads : List ConnPayload
  scheduledReconnectMs : Option Nat
  deriving DecidableEq, Repr

/-- The `connection.update` handler (service lines 97-199), translated
branch by branch.  The qr block runs first; then the
`close`/`open`/`connecting` chain.  In the `close` branch,
`shouldReconnect` is `statusCode !== DisconnectReason.loggedOut`; the
reconnect branch requires attempts below the ceiling and no manual
restart in progress.  In the else branch the manual-restart flag is reset
(line 146) BEFORE the webhook payload is built (lines 155-162), so the
payload reads the already-reset flag. -/
def handleConnectionUpdate (st : InstanceState) (u : ConnectionUpdate) :
    InstanceState × ConnUpdateEffects :=
  let (st0, persisted0, payloads0) :=
    match u.qr with
    | some q =>
      ({ st with qrCode := some q, connectionStatus := .qr_ready },
       ["qr_ready"],
       [{ status := "qr_ready"
          message := "QR Code generated. Scan to connect."
          qrCode := some q : ConnPayload }])
    | none => (st, [], [])
  if u.connection = some "close" then
    let shouldReconnect := u.lastDisconnectStatusCode ≠ some DisconnectReasonLoggedOut
    let disconnectReason := u.lastDisconnectStatusCode
    if shouldReconnect ∧ st0.reconnectAttempts < st0.maxReconnectAttempts ∧
        st0.isManualRestart = false then
      let st1 := { st0 with
        reconnectAttempts := st0.reconnectAttempts + 1
        connectionStatus := .reconnecting
        isConnected := false }
      (st1,
       { persistedStatuses := persisted0 ++ ["reconnecting"]
         webhookPayloads := payloads0 ++
           [{ status := "reconnecting"
              message := "Connection lost. Reconnecting... (attempt " ++
                toString st1.reconnectAttempts ++ "/" ++
                toString st1.maxReconnectAttempts ++ ")"
              reconnectAttempt := some st1.reconnectAttempts
              maxReconnectAttempts := some st1.maxReconnectAttempts
              disconnectReason := disconnectReason }]
         scheduledReconnectMs := some 5000 })
    else
      let st1 := if st0.isManualRestart then { st0 with isManualRestart := false } else st0
      let st2 := { st1 with connectionStatus := .logged_out, isConnected := false }
      (st2,
       { persistedStatuses := persisted0 ++ ["inactive"]
         webhookPayloads := payloads0 ++
           [{ status := "logged_out"
              message := if st2.isManualRestart then
                  "Connection closed due to manual restart"
                else "Logged out or max reconnect attempts reached"
              disconnectReason := disconnectReason
              wasManualRestart := some st2.isManualRestart }]
         scheduledReconnectMs := none })
  else if u.connection = some "open" then
    let st1 := { st0 with
      connectionStatus := .connected
      isConnected := true
      qrCode := none
      reconnectAttempts := 0 }
    (st1,
     { persistedStatuses := persisted0 ++ ["active"]
       webhookPayloads := payloads0 ++
         [{ status := "connected"
            message := "WhatsApp connection established successfully" }]
       scheduledReconnectMs := none })
  else if u.connection = some "connecting" then
    let st1 := { st0 with connectionStatus := .connecting }
    (st1,
     { persistedStatuses := persisted0 ++ ["connecting"]
       webhookPayloads := payloads0 ++
         [{ status := "connecting"
            message := "Attempting to connect to WhatsApp..." }]
       scheduledReconnectMs := none })
  else
    (st0,
     { persistedStatuses := persisted0
       webhookPayloads := payloads0
       scheduledReconnectMs := none })

/-- A bare socket-close signal with the given disconnect status code. -/
def closeUpdate (code : Option Nat) : ConnectionUpdate :=
  { connection := some "close", lastDisconnectStatusCode := code, qr := none }

/-- State transition of one close signal. -/
def closeStep (code : Option Nat) (st : InstanceState) : InstanceState :=
  (handleConnectionUpdate st (closeUpdate code)).1

/-- Effects of one close signal. -/
def closeEffects (st : InstanceState) (code : Option Nat) : ConnUpdateEffects :=
  (handleConnectionUpdate st (closeUpdate code)).2

/-- A freshly connected instance (after the `open` branch ran on the
constructor state: connected, attempts reset to 0, no manual restart). -/
def connectedState : InstanceState :=
  { initialInstanceState with isConnected := true, connectionStatus := .connected }

/-! ## Manual restart (`restartInstance`, service lines 783-802, and
`close`, lines 603-617) -/

/-- `close()`: closes the websocket without invoking `logout()`, sets
`isConnected = false` and `connectionStatus = 'disconnected'`; the
persisted status is deliberately not touched. -/
def closeInstance (st : InstanceState) : InstanceState :=
  { st with isConnected := false, connectionStatus := .disconnected }

/-- Observable steps of `restartInstance`, in program order. -/
inductive RestartStep where
  | setManualRestartFlag
  | closeSocket (invokesLogout : Bool)
  | settleDelay (ms : Nat)
  | initializeCall
  deriving DecidableEq, Repr

/-- `restartInstance(phone)`: sets the manual-restart flag, calls
`close()` (no logout), waits 1000 ms, then calls `initialize()` again. -/
def restartInstance (st : InstanceState) : InstanceState × List RestartStep :=
  let st1 := { st with isManualRestart := true }
  let st2 := closeInstance st1
  (st2,
   [.setManualRestartFlag, .closeSocket false, .settleDelay 1000, .initializeCall])

/-! ## Webhook delivery pipeline (`triggerWebhooks`, service lines 272-364)

The source iterates `for (const webhook of webhooks)` and `await`s the
`axios.post` of each webhook inside the loop body before moving on.  We
embed both (a) the order of observable actions of that loop and (b) the
outcome classification of one delivery attempt. -/

/-- Observable actions of the `triggerWebhooks` loop. `post w` is the
issuing of the HTTP POST for webhook `w`, `awaitResponse w` is the
resumption after it settled, `record w` is the history-persistence call. -/
inductive WebhookAction where
  | post (webhookId : Nat)
  | awaitResponse (webhookId : Nat)
  | record (webhookId : Nat)
  deriving DecidableEq, Repr

/-- The action trace of the `triggerWebhooks` loop over the given
webhooks: per webhook, POST is issued, then awaited, then its history
record persisted, before the next webhook's POST is issued (the `await
axios.post` sits inside the `for` body). -/
def webhookLoopTrace : List Nat → List WebhookAction
  | [] => []
  | w :: rest =>
    .post w :: .awaitResponse w :: .record w :: webhookLoopTrace rest

def WebhookAction.isPost : WebhookAction → Bool
  | .post _ => true
  | _ => false

def WebhookAction.isAwait : WebhookAction → Bool
  | .awaitResponse _ => true
  | _ => false

/-- Does some POST occur strictly after some await in the trace?  The
"issue all, then join" fan-out pattern is exactly `postAfterAwait = false`
(for two or more webhooks): every POST precedes every await. -/
def postAfterAwait : List WebhookAction → Bool
  | [] => false
  | a :: rest => (a.isAwait && rest.any (·.isPost)) || postAfterAwait rest

/-- Number of issued-but-not-yet-awaited POSTs after a trace prefix
(truncated subtraction; posts always precede their awaits here). -/
def outstandingPosts (tr : List WebhookAction) : Nat :=
  tr.countP (·.isPost) - tr.countP (·.isAwait)

/-- Outcome of one `axios.post(webhook.url, payload, {timeout: 5000})`
call, as the surrounding try/catch observes it:
`response s t b` — an HTTP response with status `s` arrived (axios
resolves exactly for 2xx, else rejects with `error.response` set);
`timedOut` — the 5 s bound elapsed (`error.code === 'ECONNABORTED'`);
`noResponse m` — a non-timeout error with no response (e.g. connection
refused). -/
inductive HttpOutcome where
  | response (status : Nat) (statusText : String) (body : String)
  | timedOut
  | noResponse (errMsg : String)
  deriving DecidableEq, Repr

/-- One webhook delivery-history record (`webhookHistoryService.create`
argument), restricted to the fields the claims speak about. -/
structure WebhookHistory where
  status : String
  httpStatusCode : Option Nat
  responseBody : Option String
  errorMessage : Option String
  deriving DecidableEq, Repr

/-- The per-webhook body of `triggerWebhooks` (lines 294-352): on an
axios resolution (2xx) the record gets `status: 'success'` with the
response metadata; in the catch, `ECONNABORTED` gives `'timeout'`, an
error carrying a response gives `'failed'` with the HTTP status code and
body, any other error gives `'failed'` with code `null`. -/
def attemptDelivery (o : HttpOutcome) : WebhookHistory :=
  match o with
  | .response s t b =>
    if 200 ≤ s ∧ s < 300 then
      { status := "success", httpStatusCode := some s
        responseBody := some b, errorMessage := none }
    else
      { status := "failed", httpStatusCode := some s
        responseBody := some b
        errorMessage := some ("Request failed with status code " ++ toString s ++ " " ++ t) }
  | .timedOut =>
    { status := "timeout", httpStatusCode := none
      responseBody := none, errorMessage := some "timeout of 5000ms exceeded" }
  | .noResponse m =>
    { status := "failed", httpStatusCode := none
      responseBody := none, errorMessage := some m }

/-- The `triggerWebhooks` loop over concrete per-webhook HTTP outcomes,
paired with whether `webhookHistoryService.create` succeeded for that
record.  A persistence failure is caught and logged (lines 355-359), so
the loop continues with the remaining webhooks either way; the returned
list pairs each produced record with its persistence result. -/
def runWebhookLoop : List (HttpOutcome × Bool) → List (WebhookHistory × Bool)
  | [] => []
  | (o, persistOk) :: rest => (attemptDelivery o, persistOk) :: runWebhookLoop rest

/-! ## Plugin dispatch engine (`PluginManager.executePlugins`,
plugin-manager lines 46-70) -/

/-- One loaded plugin registration: its name, the enabled flag from its
config, and the outcome its handler produces on the dispatched event
(`Except.error msg` models a rejected handler promise). -/
structure PluginReg where
  name : String
  enabled : Bool
  result : Except String Unit
  deriving Repr

/-- `executePlugins`: iterates the registry; every enabled plugin is
invoked and its promise gets a `.catch` that logs the error; disabled
plugins are skipped; `Promise.all` joins the caught promises, so dispatch
itself always resolves.  Returns (names invoked, error log lines). -/
def executePlugins : List PluginReg → List String × List String
  | [] => ([], [])
  | p :: rest =>
    if p.enabled then
      match p.result with
      | .ok _ => (p.name :: (executePlugins rest).1, (executePlugins rest).2)
      | .error e =>
        (p.name :: (executePlugins rest).1,
         ("Plugin " ++ p.name ++ " error: " ++ e) :: (executePlugins rest).2)
    else executePlugins rest

/-! ## Debounced batch notifier (`scheduleWelcome`,
welcome-group plugin lines 10-58)

`groupParticipants[groupId]` is the pending-items array with a
`scheduled` flag property; `timers` counts outstanding `setTimeout`
flush timers for the key.  Keys are independent, so we model one key. -/

/-- A newly joined participant as accumulated by the plugin. -/
structure Participant where
  id : String
  deriving DecidableEq, Repr

/-- Per-group accumulator state for one key of `groupParticipants`. -/
structure KeyState where
  items : List Participant
  scheduled : Bool
  timers : Nat
  deriving DecidableEq, Repr

/-- A key never touched, or just flushed: empty, unscheduled, no timer. -/
def freshKey : KeyState := { items := [], scheduled := false, timers := 0 }

/-- `scheduleWelcome` up to the timer callback: push the new participants
onto the pending array; if no flush is scheduled for this key, mark it
scheduled and arm exactly one flush timer. -/
def accumulate (st : KeyState) (newParts : List Participant) : KeyState :=
  let st1 := { st with items := st.items ++ newParts }
  if st1.scheduled then st1
  else { st1 with scheduled := true, timers := st1.timers + 1 }

/-- How one flush run ends: the admin precondition failed (skip), the
welcome message was sent (success), or sending raised an error. -/
inductive FlushOutcome where
  | notAdmin
  | success
  | sendError
  deriving DecidableEq, Repr

/-- The `setTimeout` callback: the timer fires (consuming it); on every
outcome — precondition failure, success, or error — the pending list is
replaced by a fresh empty array and the scheduled flag removed.  Returns
the participant sequence actually sent (`some` on success, `none`
otherwise). -/
def flush (st : KeyState) (o : FlushOutcome) : KeyState × Option (List Participant) :=
  let cleared : KeyState := { items := [], scheduled := false, timers := st.timers - 1 }
  match o with
  | .notAdmin => (cleared, none)
  | .success => (cleared, some st.items)
  | .sendError => (cleared, none)

/-- The single-timer invariant: a timer is outstanding for a key exactly
when the key is marked scheduled, and never more than one. -/
def TimerInv (st : KeyState) : Prop :=
  st.timers = if st.scheduled then 1 else 0

/-! ## Phone normalization (`sendMessage`, service lines 372-380) -/

/-- `phoneNumber.replace(/[^\d]/g, '')`: keep decimal digits only. -/
def stripNonDigits (s : String) : String :=
  String.mk (s.data.filter Char.isDigit)

/-- `s.startsWith(pfx)` on the underlying character lists. -/
def strStartsWith (s pfx : String) : Bool :=
  pfx.data.isPrefixOf s.data

/-- `s.substring(n)`: drop the first `n` characters. -/
def strDrop (s : String) (n : Nat) : String :=
  String.mk (s.data.drop n)

/-- The number formatting of `sendMessage`/`sendMediaMessage`: strip
non-digits; numbers already starting with `62` are untouched; otherwise a
leading `0` is replaced by `62`, and any other number is prefixed with
`62`. -/
def formatPhoneNumber (phoneNumber : String) : String :=
  let formatted := stripNonDigits phoneNumber
  if strStartsWith formatted "62" then formatted
  else if strStartsWith formatted "0" then "62" ++ strDrop formatted 1
  else "62" ++ formatted

/-! ## Outbound send operations (`sendMessage` lines 366-434,
`sendGroupMessage` lines 436-496, `sendMediaMessage` lines 498-601) -/

/-- Modelled from the spec: the watermark suffix appended to outgoing
texts is built from `package.json` metadata, which is not under `src/`;
the spec (§9) treats it as cosmetic formatting replaceable by a plain
configured suffix string. -/
def watermarkSuffix : String :=
  "\n\n> Sent via Whisper\n> @digaovaa/whisper-api-baileys.git"

/-- One persisted message record (`messageService.create` argument),
restricted to the fields the claims speak about. -/
structure StoredMessage where
  direction : String
  fromJid : String
  toJid : String
  msgType : String
  content : String
  status : String
  deriving DecidableEq, Repr

/-- The instance state an outbound send reads and writes: the connection
flag, the instance's own phone, and the external message store (modelled
as the list of records created so far). -/
structure SendContext where
  isConnected : Bool
  instancePhone : String
  messageStore : List StoredMessage
  deriving DecidableEq, Repr

/-- `sendMessage(phoneNumber, messageText)`.  `sockSend jid text` models
`this.sock.sendMessage(jid, {text})`, returning the new message id, or
`none` when the socket call rejects.  Returns the updated context, the
socket send attempts actually issued, and the result surfaced to the
caller.  The guard `if (!this.isConnected) throw` runs first: when
disconnected the error propagates with no send attempt and no
`messageService.create` call. -/
def sendMessage (sockSend : String → String → Option String)
    (ctx : SendContext) (phoneNumber messageText : String) :
    SendContext × List (String × String) × Except String String :=
  if ctx.isConnected = false then
    (ctx, [], .error ("WhatsApp instance " ++ ctx.instancePhone ++ " not connected"))
  else
    let formattedNumber := formatPhoneNumber phoneNumber
    let jid := formattedNumber ++ "@s.whatsapp.net"
    let finalMessage := messageText ++ watermarkSuffix
    match sockSend jid finalMessage with
    | none => (ctx, [(jid, finalMessage)], .error "socket send failed")
    | some messageId =>
      let stored : StoredMessage :=
        { direction := "outgoing", fromJid := ctx.instancePhone
          toJid := formattedNumber, msgType := "text"
          content := messageText, status := "sent" }
      ({ ctx with messageStore := ctx.messageStore ++ [stored] },
       [(jid, finalMessage)], .ok messageId)

/-- Is `needle` an infix of the character list? -/
def charsContain (needle : List Char) : List Char → Bool
  | [] => needle.isEmpty
  | c :: rest => needle.isPrefixOf (c :: rest) || charsContain needle rest

/-- `haystack.includes(needle)`. -/
def strIncludes (haystack needle : String) : Bool :=
  charsContain needle.data haystack.data

/-- `sendGroupMessage(groupId, messageText)`: same connection guard; the
JID is the group id, suffixed with `@g.us` unless it already contains
it. -/
def sendGroupMessage (sockSend : String → String → Option String)
    (ctx : SendContext) (groupId messageText : String) :
    SendContext × List (String × String) × Except String String :=
  if ctx.isConnected = false then
    (ctx, [], .error ("WhatsApp instance " ++ ctx.instancePhone ++ " not connected"))
  else
    let jid := if strIncludes groupId "@g.us" then groupId else groupId ++ "@g.us"
    let finalMessage := messageText ++ watermarkSuffix
    match sockSend jid finalMessage with
    | none => (ctx, [(jid, finalMessage)], .error "socket send failed")
    | some messageId =>
      let stored : StoredMessage :=
        { direction := "outgoing", fromJid := ctx.instancePhone
          toJid := groupId, msgType := "text"
          content := messageText, status := "sent" }
      ({ ctx with messageStore := ctx.messageStore ++ [stored] },
       [(jid, finalMessage)], .ok messageId)

/-- The `mediaData` argument of `sendMediaMessage`. -/
structure MediaData where
  mediaType : String
  url : String
  caption : Option String
  filename : Option String
  deriving DecidableEq, Repr

/-- The protocol message content built by the `switch (type.toLowerCase())`
of `sendMediaMessage` (lines 520-550). -/
inductive MediaContent where
  | image (url : String) (caption : Option String)
  | video (url : String) (caption : Option String)
  | audio (url : String) (mimetype : String)
  | document (url : String) (fileName : String) (caption : Option String)
  deriving DecidableEq, Repr

/-- The media-content switch; an unknown kind throws
`Unsupported media type`. -/
def prepareMediaContent (m : MediaData) : Except String MediaContent :=
  let cap := m.caption.map (fun c => c ++ watermarkSuffix)
  let t := m.mediaType.toLower
  if t = "image" then .ok (.image m.url cap)
  else if t = "video" then .ok (.video m.url cap)
  else if t = "audio" then .ok (.audio m.url "audio/mp4")
  else if t = "document" then .ok (.document m.url (m.filename.getD "document") cap)
  else .error ("Unsupported media type: " ++ m.mediaType ++
    ". Supported types: image, video, audio, document")

/-- `sendMediaMessage(phoneNumber, mediaData)`: same connection guard
first, then phone formatting, the media switch, the socket send, and the
outgoing-record persistence. -/
def sendMediaMessage (sockSendMedia : String → MediaContent → Option String)
    (ctx : SendContext) (phoneNumber : String) (mediaData : MediaData) :
    SendContext × List (String × MediaContent) × Except String String :=
  if ctx.isConnected = false then
    (ctx, [], .error ("WhatsApp instance " ++ ctx.instancePhone ++ " not connected"))
  else
    let formattedNumber := formatPhoneNumber phoneNumber
    let jid := formattedNumber ++ "@s.whatsapp.net"
    match prepareMediaContent mediaData with
    | .error e => (ctx, [], .error e)
    | .ok content =>
      match sockSendMedia jid content with
      | none => (ctx, [(jid, content)], .error "socket send failed")
      | some messageId =>
        let stored : StoredMessage :=
          { direction := "outgoing", fromJid := ctx.instancePhone
            toJid := formattedNumber, msgType := mediaData.mediaType.toLower
            content := mediaData.caption.getD (mediaData.mediaType ++ " media")
            status := "sent" }
        ({ ctx with messageStore := ctx.messageStore ++ [stored] },
         [(jid, content)], .ok messageId)

/-! ## Inbound message processing (`handleMessagesUpsert` lines 218-243,
`storeMessage` lines 245-270) -/

/-- An inbound message as `handleMessagesUpsert` inspects it. -/
structure InboundMessage where
  msgId : String
  fromMe : Bool
  remoteJid : String
  deriving DecidableEq, Repr

/-- The external conditions one message's processing runs under:
whether `messageService.create` succeeds inside `storeMessage` (its
failure is caught there and only logged), the plugin registry, and the
per-webhook HTTP outcomes with their history-persistence results. -/
structure MsgFaults where
  storeOk : Bool
  plugins : List PluginReg
  webhookOutcomes : List (HttpOutcome × Bool)

/-- Observable steps of processing one inbound message, carrying each
sub-component's outcome. -/
inductive ControllerAction where
  | storeAttempt (msgId : String) (ok : Bool)
  | pluginDispatchRun (msgId : String) (errorLogs : List String)
  | webhookDeliveryRun (msgId : String) (records : List WebhookHistory)
  deriving DecidableEq, Repr

def ControllerAction.isStore : ControllerAction → Bool
  | .storeAttempt _ _ => true
  | _ => false

def ControllerAction.isDispatch : ControllerAction → Bool
  | .pluginDispatchRun _ _ => true
  | _ => false

def ControllerAction.isWebhook : ControllerAction → Bool
  | .webhookDeliveryRun _ _ => true
  | _ => false

/-- The loop body of `handleMessagesUpsert` for one non-self message:
`await this.storeMessage(message)` (internal try/catch: a persistence
failure is logged, never thrown), then
`await this.pluginManager.executePlugins(...)` (every handler promise is
caught), then `await this.triggerWebhooks('message.received', ...)`
(top-level try/catch) — three steps in program order, none of which can
reject, so the surrounding catch never aborts the sequence. -/
def processOneMessage (m : InboundMessage) (f : MsgFaults) : List ControllerAction :=
  [ .storeAttempt m.msgId f.storeOk,
    .pluginDispatchRun m.msgId (executePlugins f.plugins).2,
    .webhookDeliveryRun m.msgId ((runWebhookLoop f.webhookOutcomes).map (·.1)) ]

/-- `handleMessagesUpsert({messages, type})`: returns immediately unless
`type === 'notify'`; messages with `key.fromMe` are skipped; the rest are
processed in order. -/
def handleMessagesUpsert (updateType : String)
    (msgs : List (InboundMessage × MsgFaults)) : List ControllerAction :=
  if updateType ≠ "notify" then []
  else msgs.flatMap (fun p => if p.1.fromMe then [] else processOneMessage p.1 p.2)

/-! ## Helper lemmas: close-signal behavior of the state machine -/

/-- Behavior of one close signal when the reconnect branch is taken:
non-logout reason, attempts below the ceiling, no manual restart. -/
lemma closeStep_reconnect (code : Option Nat) (st : InstanceState)
    (hcode : code ≠ some DisconnectReasonLoggedOut)
    (hlt : st.reconnectAttempts < st.maxReconnectAttempts)
    (hman : st.isManualRestart = false) :
    closeStep code st =
      { st with reconnectAttempts := st.reconnectAttempts + 1
                connectionStatus := .reconnecting
                isConnected := false } := by
  have hc : code ≠ some DisconnectReasonLoggedOut ∧
      st.reconnectAttempts < st.maxReconnectAttempts ∧ st.isManualRestart = false :=
    ⟨hcode, hlt, hman⟩
  simp only [closeStep, handleConnectionUpdate, closeUpdate]
  rw [if_pos hc]
  simp

/-- Effects of one close signal in the reconnect branch: the status is
persisted, one reconnecting payload is emitted and a 5 s reconnect timer
is scheduled. -/
lemma closeEffects_reconnect (code : Option Nat) (st : InstanceState)
    (hcode : code ≠ some DisconnectReasonLoggedOut)
    (hlt : st.reconnectAttempts < st.maxReconnectAttempts)
    (hman : st.isManualRestart = false) :
    closeEffects st code =
      { persistedStatuses := ["reconnecting"]
        webhookPayloads :=
          [{ status := "reconnecting"
             message := "Connection lost. Reconnecting... (attempt " ++
               toString (st.reconnectAttempts + 1) ++ "/" ++
               toString st.maxReconnectAttempts ++ ")"
             reconnectAttempt := some (st.reconnectAttempts + 1)
             maxReconnectAttempts := some st.maxReconnectAttempts
             disconnectReason := code }]
        scheduledReconnectMs := some 5000 } := by
  have hc : code ≠ some DisconnectReasonLoggedOut ∧
      st.reconnectAttempts < st.maxReconnectAttempts ∧ st.isManualRestart = false :=
    ⟨hcode, hlt, hman⟩
  simp only [closeEffects, handleConnectionUpdate, closeUpdate]
  rw [if_pos hc]
  simp

/-- Behavior of one close signal in the else branch when no manual
restart is in progress (logout reason or exhausted ceiling). -/
lemma closeStep_loggedOut (code : Option Nat) (st : InstanceState)
    (hcond : ¬(code ≠ some DisconnectReasonLoggedOut ∧
      st.reconnectAttempts < st.maxReconnectAttempts ∧ st.isManualRestart = false))
    (hman : st.isManualRestart = false) :
    closeStep code st =
      { st with connectionStatus := .logged_out, isConnected := false } := by
  simp only [closeStep, handleConnectionUpdate, closeUpdate]
  rw [if_neg hcond]
  simp [hman]

/-- Effects of one close signal in the else branch when no manual restart
is in progress: status persisted as inactive, one logged-out payload, no
reconnect timer. -/
lemma closeEffects_loggedOut (code : Option Nat) (st : InstanceState)
    (hcond : ¬(code ≠ some DisconnectReasonLoggedOut ∧
      st.reconnectAttempts < st.maxReconnectAttempts ∧ st.isManualRestart = false))
    (hman : st.isManualRestart = false) :
    closeEffects st code =
      { persistedStatuses := ["inactive"]
        webhookPayloads :=
          [{ status := "logged_out"
             message := "Logged out or max reconnect attempts reached"
             disconnectReason := code
             wasManualRestart := some false }]
        scheduledReconnectMs := none } := by
  simp only [closeEffects, handleConnectionUpdate, closeUpdate]
  rw [if_neg hcond]
  simp [hman]

/-- Closed form of the state reached after `k` consecutive non-logout
close signals on an unresolved outage starting from a connected
instance. -/
def outageState (k : Nat) : InstanceState :=
  { isConnected := decide (k = 0)
    connectionStatus :=
      if k = 0 then .connected
      else if k ≤ 5 then .reconnecting else .logged_out
    qrCode := none
    reconnectAttempts := min k 5
    maxReconnectAttempts := 5
    isManualRestart := false }

lemma outageState_zero : outageState 0 = connectedState := by
  simp [outageState, connectedState, initialInstanceState]

lemma outage_iterate (code : Option Nat)
    (hcode : code ≠ some DisconnectReasonLoggedOut) :
    ∀ k, (closeStep code)^[k] connectedState = outageState k := by
  intro k
  induction k with
  | zero => simpa using outageState_zero.symm
  | succ k ih =>
    rw [Function.iterate_succ_apply', ih]
    by_cases hk : k < 5
    · have h0 : (outageState k).reconnectAttempts < (outageState k).maxReconnectAttempts := by
        simp only [outageState]; omega
      rw [closeStep_reconnect code _ hcode h0 rfl]
      have e1 : ¬(k + 1 = 0) := by omega
      have e2 : k + 1 ≤ 5 := by omega
      have e3 : min k 5 + 1 = min (k + 1) 5 := by omega
      simp [outageState, e1, e2, e3]
    · have h0 : ¬(code ≠ some DisconnectReasonLoggedOut ∧
          (outageState k).reconnectAttempts < (outageState k).maxReconnectAttempts ∧
          (outageState k).isManualRestart = false) := by
        intro h
        have := h.2.1
        simp only [outageState] at this
        omega
      rw [closeStep_loggedOut code _ h0 rfl]
      have e1 : ¬(k + 1 = 0) := by omega
      have e2 : ¬(k + 1 ≤ 5) := by omega
      have e3 : min k 5 = min (k + 1) 5 := by omega
      simp [outageState, e1, e2, e3]

/-- Behavior of one close signal while the manual-restart flag is set:
the reconnect branch is skipped regardless of reason or attempt count,
the flag is reset before the payload is built, and no timer is armed. -/
lemma close_manualRestart (code : Option Nat) (st : InstanceState)
    (hman : st.isManualRestart = true) :
    handleConnectionUpdate st (closeUpdate code) =
      ({ st with isManualRestart := false
                 connectionStatus := .logged_out
                 isConnected := false },
       { persistedStatuses := ["inactive"]
         webhookPayloads :=
           [{ status := "logged_out"
              message := "Logged out or max reconnect attempts reached"
              disconnectReason := code
              wasManualRestart := some false }]
         scheduledReconnectMs := none }) := by
  have hcond : ¬(code ≠ some DisconnectReasonLoggedOut ∧
      st.reconnectAttempts < st.maxReconnectAttempts ∧ st.isManualRestart = false) := by
    intro h
    simp [hman] at h
  simp only [handleConnectionUpdate, closeUpdate]
  rw [if_neg hcond]
  simp [hman]

/-- C1: on a single unresolved outage (consecutive close signals with a
non-logout reason, no manual restart), the controller increments
`reconnectAttempts` and enters `reconnecting` exactly while the attempt
count is below 5 (scheduling the 5 s re-init); `reconnectAttempts` never
exceeds 5, and the 6th consecutive closure yields `logged_out` with no
reconnect scheduled. -/
theorem reconnect_attempts_bounded (code : Option Nat)
    (hcode : code ≠ some DisconnectReasonLoggedOut) :
    (∀ k, ((closeStep code)^[k] connectedState).reconnectAttempts = min k 5) ∧
    (∀ k, ((closeStep code)^[k] connectedState).reconnectAttempts ≤ 5) ∧
    (∀ k, 1 ≤ k → k ≤ 5 →
      ((closeStep code)^[k] connectedState).connectionStatus = ConnStatus.reconnecting ∧
      (closeEffects ((closeStep code)^[k - 1] connectedState) code).scheduledReconnectMs =
        some 5000) ∧
    ((closeStep code)^[6] connectedState).connectionStatus = ConnStatus.logged_out ∧
    (closeEffects ((closeStep code)^[5] connectedState) code).scheduledReconnectMs = none ∧
    (∀ st : InstanceState, st.maxReconnectAttempts = 5 → st.isManualRestart = false →
      ((closeStep code st).connectionStatus = ConnStatus.reconnecting ↔
        st.reconnectAttempts < 5) ∧
      (st.reconnectAttempts < 5 →
        (closeStep code st).reconnectAttempts = st.reconnectAttempts + 1)) := by
  refine ⟨?_, ?_, ?_, ?_, ?_, ?_⟩
  · intro k
    rw [outage_iterate code hcode k]
    rfl
  · intro k
    rw [outage_iterate code hcode k]
    simp only [outageState]
    omega
  · intro k hk1 hk5
    constructor
    · rw [outage_iterate code hcode k]
      simp only [outageState]
      rw [if_neg (by omega : ¬k = 0), if_pos hk5]
    · rw [outage_iterate code hcode (k - 1)]
      have hlt : (outageState (k - 1)).reconnectAttempts <
          (outageState (k - 1)).maxReconnectAttempts := by
        simp only [outageState]
        omega
      rw [closeEffects_reconnect code _ hcode hlt rfl]
  · rw [outage_iterate code hcode 6]
    simp [outageState]
  · rw [outage_iterate code hcode 5]
    have hcond : ¬(code ≠ some DisconnectReasonLoggedOut ∧
        (outageState 5).reconnectAttempts < (outageState 5).maxReconnectAttempts ∧
        (outageState 5).isManualRestart = false) := by
      intro h
      have := h.2.1
      simp [outageState] at this
    rw [closeEffects_loggedOut code _ hcond rfl]
  · intro st hmax hman
    by_cases hlt : st.reconnectAttempts < 5
    · rw [closeStep_reconnect code st hcode (by omega) hman]
      simp [hlt]
    · have hcond : ¬(code ≠ some DisconnectReasonLoggedOut ∧
          st.reconnectAttempts < st.maxReconnectAttempts ∧ st.isManualRestart = false) := by
        intro h
        obtain ⟨-, h2, -⟩ := h
        omega
      rw [closeStep_loggedOut code st hcond hman]
      simp [hlt]

/-- Witness for the reconnect-ceiling theorem at the concrete disconnect
code 428: the 6th close yields `logged_out` and the 3rd leaves 3
attempts. -/
theorem reconnect_attempts_bounded_witness :
    ((some 428 : Option Nat) ≠ some DisconnectReasonLoggedOut) ∧
    ((closeStep (some 428))^[6] connectedState).connectionStatus = ConnStatus.logged_out ∧
    ((closeStep (some 428))^[3] connectedState).reconnectAttempts = min 3 5 := by
  have h := reconnect_attempts_bounded (some 428) (by decide)
  exact ⟨by decide, h.2.2.2.1, h.1 3⟩

/-- C2: a close processed while the manual-restart flag is set always
takes the `logged_out` branch, schedules no automatic reconnect, and
consumes (resets) the flag; `restartInstance` sets the flag, closes the
socket without logout, waits the 1 s settle delay, then reinitializes. -/
theorem manual_restart_suppresses_reconnect :
    (∀ (st : InstanceState) (code : Option Nat), st.isManualRestart = true →
      (handleConnectionUpdate st (closeUpdate code)).1.connectionStatus =
        ConnStatus.logged_out ∧
      (handleConnectionUpdate st (closeUpdate code)).1.isManualRestart = false ∧
      (handleConnectionUpdate st (closeUpdate code)).2.scheduledReconnectMs = none) ∧
    (∀ st : InstanceState,
      (restartInstance st).2 =
        [RestartStep.setManualRestartFlag, RestartStep.closeSocket false,
         RestartStep.settleDelay 1000, RestartStep.initializeCall] ∧
      (restartInstance st).1.isManualRestart = true ∧
      (restartInstance st).1.isConnected = false) := by
  constructor
  · intro st code hman
    rw [close_manualRestart code st hman]
    exact ⟨rfl, rfl, rfl⟩
  · intro st
    exact ⟨rfl, rfl, rfl⟩

/-- Witness for the manual-restart theorem on a concrete flagged state
and close code 428. -/
theorem manual_restart_suppresses_reconnect_witness :
    ({ connectedState with isManualRestart := true } : InstanceState).isManualRestart = true ∧
    (handleConnectionUpdate { connectedState with isManualRestart := true }
      (closeUpdate (some 428))).1.connectionStatus = ConnStatus.logged_out ∧
    (handleConnectionUpdate { connectedState with isManualRestart := true }
      (closeUpdate (some 428))).2.scheduledReconnectMs = none := by
  have h := manual_restart_suppresses_reconnect.1
    { connectedState with isManualRestart := true } (some 428) rfl
  exact ⟨rfl, h.1, h.2.2⟩

/-- C10: a close processed while the manual-restart flag is set emits a
`logged_out` webhook payload with `wasManualRestart = false` and the
message "Logged out or max reconnect attempts reached", because the flag
is reset before the payload is constructed. -/
theorem manual_restart_payload_indistinct (st : InstanceState) (code : Option Nat)
    (hman : st.isManualRestart = true) :
    (handleConnectionUpdate st (closeUpdate code)).2.webhookPayloads =
      [{ status := "logged_out"
         message := "Logged out or max reconnect attempts reached"
         disconnectReason := code
         wasManualRestart := some false }] := by
  rw [close_manualRestart code st hman]

/-- Witness for the manual-restart payload theorem on a concrete flagged
state. -/
theorem manual_restart_payload_indistinct_witness :
    ({ connectedState with isManualRestart := true } : InstanceState).isManualRestart = true ∧
    (handleConnectionUpdate { connectedState with isManualRestart := true }
      (closeUpdate (some 428))).2.webhookPayloads =
      [{ status := "logged_out"
         message := "Logged out or max reconnect attempts reached"
         disconnectReason := some 428
         wasManualRestart := some false }] :=
  ⟨rfl, manual_restart_payload_indistinct
    { connectedState with isManualRestart := true } (some 428) rfl⟩

/-! ## Webhook fan-out order (C3) -/

/-- C3 counterexample: with two enabled webhooks, the `triggerWebhooks`
loop issues webhook 2's POST only after webhook 1's POST has been
awaited (and its record persisted) — a POST occurs after an await, so it
is false that all POSTs are issued before any is awaited. -/
theorem webhook_fanout_counterexample :
    webhookLoopTrace [1, 2] =
      [WebhookAction.post 1, WebhookAction.awaitResponse 1, WebhookAction.record 1,
       WebhookAction.post 2, WebhookAction.awaitResponse 2, WebhookAction.record 2] ∧
    postAfterAwait (webhookLoopTrace [1, 2]) = true := by
  constructor
  · rfl
  · decide

lemma countP_post_take (ids : List Nat) (w m : Nat) :
    ((webhookLoopTrace (w :: ids)).take (m + 3)).countP (·.isPost) =
      ((webhookLoopTrace ids).take m).countP (·.isPost) + 1 := by
  simp [webhookLoopTrace, List.take_succ_cons, List.countP_cons, WebhookAction.isPost]

lemma countP_await_take (ids : List Nat) (w m : Nat) :
    ((webhookLoopTrace (w :: ids)).take (m + 3)).countP (·.isAwait) =
      ((webhookLoopTrace ids).take m).countP (·.isAwait) + 1 := by
  simp [webhookLoopTrace, List.take_succ_cons, List.countP_cons, WebhookAction.isAwait]

/-- C3 amended: webhook deliveries are strictly sequential.  The loop
trace is the in-order concatenation of per-webhook POST/await/record
blocks, and in every prefix of the trace at most one POST is outstanding
(issued but not yet awaited) — never the all-issued-then-join overlap the
claim asserts. -/
theorem webhook_delivery_sequential :
    (∀ ids : List Nat, webhookLoopTrace ids =
      ids.flatMap (fun w => [WebhookAction.post w, WebhookAction.awaitResponse w,
        WebhookAction.record w])) ∧
    (∀ (ids : List Nat) (n : Nat),
      outstandingPosts ((webhookLoopTrace ids).take n) ≤ 1) := by
  constructor
  · intro ids
    induction ids with
    | nil => rfl
    | cons w rest ih => simp [webhookLoopTrace, ih]
  · intro ids
    induction ids with
    | nil =>
      intro n
      simp [webhookLoopTrace, outstandingPosts]
    | cons w rest ih =>
      intro n
      match n with
      | 0 => simp [outstandingPosts]
      | 1 =>
        simp [webhookLoopTrace, outstandingPosts, WebhookAction.isPost, WebhookAction.isAwait]
      | 2 =>
        simp [webhookLoopTrace, outstandingPosts, WebhookAction.isPost, WebhookAction.isAwait]
      | m + 3 =>
        have h1 := countP_post_take rest w m
        have h2 := countP_await_take rest w m
        have h3 := ih m
        simp only [outstandingPosts] at h3 ⊢
        omega

/-! ## Webhook outcome classification (C4) -/

/-- C4: the recorded status is `success` exactly for a 2xx response,
`timeout` exactly for the elapsed 5 s bound, and `failed` for every other
error — with the HTTP status code and body recorded when a non-2xx
response exists; the loop produces exactly one record per webhook, the
records are independent of the persistence flags, and a persistence
failure leaves the remaining webhooks' records intact. -/
theorem webhook_outcome_classification :
    (∀ o : HttpOutcome,
      ((attemptDelivery o).status = "success" ↔
        ∃ s t b, o = HttpOutcome.response s t b ∧ 200 ≤ s ∧ s < 300) ∧
      ((attemptDelivery o).status = "timeout" ↔ o = HttpOutcome.timedOut) ∧
      ((attemptDelivery o).status = "success" ∨ (attemptDelivery o).status = "timeout" ∨
        (attemptDelivery o).status = "failed")) ∧
    (∀ (s : Nat) (t b : String), ¬(200 ≤ s ∧ s < 300) →
      attemptDelivery (.response s t b) =
        { status := "failed", httpStatusCode := some s, responseBody := some b
          errorMessage :=
            some ("Request failed with status code " ++ toString s ++ " " ++ t) }) ∧
    (∀ outs : List (HttpOutcome × Bool),
      (runWebhookLoop outs).length = outs.length ∧
      (runWebhookLoop outs).map (·.1) = outs.map (fun p => attemptDelivery p.1) ∧
      (runWebhookLoop outs).map (·.2) = outs.map (fun p => p.2)) := by
  refine ⟨?_, ?_, ?_⟩
  · intro o
    cases o with
    | response s t b =>
      by_cases h : 200 ≤ s ∧ s < 300
      · refine ⟨?_, ?_, ?_⟩
        · have hs : (attemptDelivery (.response s t b)).status = "success" := by
            simp [attemptDelivery, if_pos h]
          exact iff_of_true hs ⟨s, t, b, rfl, h⟩
        · simp [attemptDelivery, if_pos h]
        · simp [attemptDelivery, if_pos h]
      · refine ⟨?_, ?_, ?_⟩
        · simp only [attemptDelivery, if_neg h]
          constructor
          · intro hs
            exact absurd hs (by decide)
          · rintro ⟨s', t', b', heq, hb⟩
            obtain ⟨rfl, rfl, rfl⟩ := HttpOutcome.response.injEq .. |>.mp heq
            exact absurd hb h
        · simp [attemptDelivery, if_neg h]
        · simp [attemptDelivery, if_neg h]
    | timedOut => simp [attemptDelivery]
    | noResponse m => simp [attemptDelivery]
  · intro s t b h
    simp [attemptDelivery, if_neg h]
  · intro outs
    induction outs with
    | nil => exact ⟨rfl, rfl, rfl⟩
    | cons o rest ih =>
      exact ⟨by simpa [runWebhookLoop] using ih.1,
        by simp [runWebhookLoop, ih.2.1],
        by simp [runWebhookLoop, ih.2.2]⟩

/-- Witness for the outcome-classification theorem at a 404 response. -/
theorem webhook_outcome_classification_witness :
    (¬(200 ≤ 404 ∧ 404 < 300)) ∧
    attemptDelivery (.response 404 "Not Found" "nope") =
      { status := "failed", httpStatusCode := some 404, responseBody := some "nope"
        errorMessage :=
          some ("Request failed with status code " ++ toString 404 ++ " " ++ "Not Found") } :=
  ⟨by decide, webhook_outcome_classification.2.1 404 "Not Found" "nope" (by decide)⟩

/-! ## Plugin dispatch (C5) -/

lemma executePlugins_invoked (ps : List PluginReg) :
    (executePlugins ps).1 = (ps.filter (·.enabled)).map (·.name) := by
  induction ps with
  | nil => rfl
  | cons q rest ih =>
    by_cases hq : q.enabled
    · cases hr : q.result <;> simp [executePlugins, hq, hr, ih]
    · simp [executePlugins, hq, ih]

lemma executePlugins_logs (ps : List PluginReg) :
    (executePlugins ps).2 = (ps.filter (·.enabled)).filterMap
      (fun p => match p.result with
        | .ok _ => none
        | .error e => some ("Plugin " ++ p.name ++ " error: " ++ e)) := by
  induction ps with
  | nil => rfl
  | cons q rest ih =>
    by_cases hq : q.enabled
    · cases hr : q.result <;> simp [executePlugins, hq, hr, ih]
    · simp [executePlugins, hq, ih]

/-- C5: dispatch invokes exactly the enabled handlers (disabled handlers
are never invoked when names are unique, as they are in the name-keyed
registry map), logs exactly one error line per failing enabled handler,
and — every handler promise being caught — returns a plain result to the
caller rather than raising. -/
theorem plugin_dispatch_isolated :
    (∀ ps : List PluginReg,
      (executePlugins ps).1 = (ps.filter (·.enabled)).map (·.name) ∧
      (executePlugins ps).2 = (ps.filter (·.enabled)).filterMap
        (fun p => match p.result with
          | .ok _ => none
          | .error e => some ("Plugin " ++ p.name ++ " error: " ++ e))) ∧
    (∀ (ps : List PluginReg) (p : PluginReg), p ∈ ps → p.enabled = false →
      (ps.map (·.name)).Nodup → p.name ∉ (executePlugins ps).1) := by
  refine ⟨fun ps => ⟨executePlugins_invoked ps, executePlugins_logs ps⟩, ?_⟩
  intro ps p hp hpe hnodup hmem
  rw [executePlugins_invoked] at hmem
  obtain ⟨q, hq, hqname⟩ := List.mem_map.mp hmem
  have hqmem : q ∈ ps := (List.mem_filter.mp hq).1
  have hqen : q.enabled = true := by simpa using (List.mem_filter.mp hq).2
  have hpq : q = p := List.inj_on_of_nodup_map hnodup hqmem hp hqname
  rw [hpq] at hqen
  rw [hqen] at hpe
  exact absurd hpe (by decide)

/-- Witness for the plugin-dispatch theorem: three enabled handlers, one
failing, plus one disabled handler. -/
theorem plugin_dispatch_isolated_witness :
    ((⟨"d", false, Except.ok ()⟩ : PluginReg) ∈
      ([⟨"a", true, .ok ()⟩, ⟨"b", true, .error "boom"⟩, ⟨"c", true, .ok ()⟩,
        ⟨"d", false, .ok ()⟩] : List PluginReg)) ∧
    "d" ∉ (executePlugins [⟨"a", true, .ok ()⟩, ⟨"b", true, .error "boom"⟩,
      ⟨"c", true, .ok ()⟩, ⟨"d", false, .ok ()⟩]).1 := by
  constructor
  · simp
  · exact plugin_dispatch_isolated.2
      [⟨"a", true, .ok ()⟩, ⟨"b", true, .error "boom"⟩, ⟨"c", true, .ok ()⟩,
       ⟨"d", false, .ok ()⟩]
      ⟨"d", false, .ok ()⟩ (by simp) rfl (by simp)

/-! ## Debounced batch notifier (C6) -/

lemma foldl_accumulate_scheduled (batches : List (List Participant)) :
    ∀ l : List Participant,
      batches.foldl accumulate { items := l, scheduled := true, timers := 1 } =
        { items := l ++ batches.flatten, scheduled := true, timers := 1 } := by
  induction batches with
  | nil => intro l; simp
  | cons b rest ih =>
    intro l
    have hstep : accumulate { items := l, scheduled := true, timers := 1 } b =
        { items := l ++ b, scheduled := true, timers := 1 } := by
      simp [accumulate]
    rw [List.foldl_cons, hstep, ih (l ++ b)]
    simp

/-- C6: any number of accumulate calls within one window arm exactly one
flush timer and gather all items in arrival order; every flush outcome
(skip, success, error) clears the pending sequence and the scheduled
flag, returning the key to the fresh state so a later accumulate starts a
new batch; the timer/scheduled invariant guarantees at most one
outstanding flush timer per key. -/
theorem batch_notifier_single_flush :
    (∀ (b : List Participant) (rest : List (List Participant)),
      ((b :: rest).foldl accumulate freshKey).items = (b :: rest).flatten ∧
      ((b :: rest).foldl accumulate freshKey).scheduled = true ∧
      ((b :: rest).foldl accumulate freshKey).timers = 1) ∧
    (∀ (st : KeyState) (o : FlushOutcome),
      (flush st o).1.items = [] ∧ (flush st o).1.scheduled = false) ∧
    (∀ st : KeyState, flush st .success =
      ({ items := [], scheduled := false, timers := st.timers - 1 }, some st.items)) ∧
    (∀ (st : KeyState) (o : FlushOutcome), TimerInv st → st.scheduled = true →
      (flush st o).1 = freshKey) ∧
    (∀ (st : KeyState) (parts : List Participant),
      TimerInv st → TimerInv (accumulate st parts)) ∧
    (∀ (st : KeyState) (o : FlushOutcome), TimerInv st → st.scheduled = true →
      TimerInv (flush st o).1) ∧
    TimerInv freshKey ∧
    (∀ st : KeyState, TimerInv st → st.timers ≤ 1) := by
  have hflush_fresh : ∀ (st : KeyState) (o : FlushOutcome),
      TimerInv st → st.scheduled = true → (flush st o).1 = freshKey := by
    intro st o hinv hsched
    have ht : st.timers = 1 := by rw [hinv, if_pos hsched]
    cases o <;> simp [flush, freshKey, ht]
  refine ⟨?_, ?_, ?_, hflush_fresh, ?_, ?_, ?_, ?_⟩
  · intro b rest
    have hfirst : accumulate freshKey b =
        { items := b, scheduled := true, timers := 1 } := by
      simp [accumulate, freshKey]
    rw [List.foldl_cons, hfirst, foldl_accumulate_scheduled rest b]
    exact ⟨rfl, rfl, rfl⟩
  · intro st o
    cases o <;> exact ⟨rfl, rfl⟩
  · intro st
    rfl
  · intro st parts hinv
    by_cases hs : st.scheduled
    · simp only [accumulate, hs, if_pos]
      simpa [TimerInv, hs] using hinv
    · have hs' : st.scheduled = false := by simpa using hs
      have ht : st.timers = 0 := by rw [hinv, if_neg hs]
      simp [accumulate, hs', TimerInv, ht]
  · intro st o hinv hsched
    rw [hflush_fresh st o hinv hsched]
    rfl
  · rfl
  · intro st hinv
    rw [hinv]
    split <;> omega

/-- Witness for the batch-notifier theorem: three accumulates for one
key, then a successful flush. -/
theorem batch_notifier_single_flush_witness :
    (([[⟨"p1"⟩], [⟨"p2"⟩], [⟨"p3"⟩]] : List (List Participant)).foldl accumulate
      freshKey).items = [⟨"p1"⟩, ⟨"p2"⟩, ⟨"p3"⟩] ∧
    (([[⟨"p1"⟩], [⟨"p2"⟩], [⟨"p3"⟩]] : List (List Participant)).foldl accumulate
      freshKey).timers = 1 ∧
    TimerInv freshKey ∧
    (flush { items := [⟨"p1"⟩], scheduled := true, timers := 1 } .success).1 = freshKey := by
  have h := batch_notifier_single_flush
  refine ⟨?_, (h.1 [⟨"p1"⟩] [[⟨"p2"⟩], [⟨"p3"⟩]]).2.2, h.2.2.2.2.2.2.1, ?_⟩
  · rw [(h.1 [⟨"p1"⟩] [[⟨"p2"⟩], [⟨"p3"⟩]]).1]
    rfl
  · exact h.2.2.2.1 _ FlushOutcome.success rfl rfl

/-! ## Phone normalization (C7) -/

/-- C7: normalization strips non-digits, leaves numbers already starting
with `62` unchanged, replaces a leading `0` by `62`, and prefixes `62`
onto any other number; in particular "081234567" and "81234567" map to
"6281234567" and "6281234567" is unchanged. -/
theorem phone_normalization :
    (∀ s : String,
      (strStartsWith (stripNonDigits s) "62" = true →
        formatPhoneNumber s = stripNonDigits s) ∧
      (strStartsWith (stripNonDigits s) "62" = false →
        strStartsWith (stripNonDigits s) "0" = true →
        formatPhoneNumber s = "62" ++ strDrop (stripNonDigits s) 1) ∧
      (strStartsWith (stripNonDigits s) "62" = false →
        strStartsWith (stripNonDigits s) "0" = false →
        formatPhoneNumber s = "62" ++ stripNonDigits s)) ∧
    formatPhoneNumber "081234567" = "6281234567" ∧
    formatPhoneNumber "81234567" = "6281234567" ∧
    formatPhoneNumber "6281234567" = "6281234567" := by
  refine ⟨?_, by decide, by decide, by decide⟩
  intro s
  refine ⟨fun h1 => ?_, fun h1 h2 => ?_, fun h1 h2 => ?_⟩
  · simp [formatPhoneNumber, h1]
  · simp [formatPhoneNumber, h1, h2]
  · simp [formatPhoneNumber, h1, h2]

/-- Witness for the normalization theorem at "081234567" (leading-zero
branch). -/
theorem phone_normalization_witness :
    strStartsWith (stripNonDigits "081234567") "62" = false ∧
    strStartsWith (stripNonDigits "081234567") "0" = true ∧
    formatPhoneNumber "081234567" = "62" ++ strDrop (stripNonDigits "081234567") 1 :=
  ⟨by decide, by decide,
   (phone_normalization.1 "081234567").2.1 (by decide) (by decide)⟩

/-! ## Not-connected guard on outbound sends (C8) -/

/-- C8: every outbound operation — `sendMessage`, `sendGroupMessage`,
`sendMediaMessage` — invoked while `isConnected` is false surfaces the
not-connected error to the caller, attempts no socket send, and leaves
the message store (whole context) unchanged. -/
theorem not_connected_guard
    (sockSend : String → String → Option String)
    (sockSendMedia : String → MediaContent → Option String)
    (ctx : SendContext) (h : ctx.isConnected = false)
    (phoneNumber messageText groupId : String) (mediaData : MediaData) :
    sendMessage sockSend ctx phoneNumber messageText =
      (ctx, [], Except.error ("WhatsApp instance " ++ ctx.instancePhone ++ " not connected")) ∧
    sendGroupMessage sockSend ctx groupId messageText =
      (ctx, [], Except.error ("WhatsApp instance " ++ ctx.instancePhone ++ " not connected")) ∧
    sendMediaMessage sockSendMedia ctx phoneNumber mediaData =
      (ctx, [], Except.error ("WhatsApp instance " ++ ctx.instancePhone ++ " not connected")) := by
  refine ⟨?_, ?_, ?_⟩
  · simp [sendMessage, h]
  · simp [sendGroupMessage, h]
  · simp [sendMediaMessage, h]

/-- Witness for the not-connected guard on a concrete disconnected
context: the error is surfaced and the message store stays empty. -/
theorem not_connected_guard_witness :
    ({ isConnected := false, instancePhone := "628111", messageStore := [] }
      : SendContext).isConnected = false ∧
    sendMessage (fun _ _ => none)
      { isConnected := false, instancePhone := "628111", messageStore := [] }
      "0812" "hi" =
      ({ isConnected := false, instancePhone := "628111", messageStore := [] }, [],
       Except.error ("WhatsApp instance " ++ "628111" ++ " not connected")) :=
  ⟨rfl,
   (not_connected_guard (fun _ _ => none) (fun _ _ => none) _ rfl "0812" "hi" "g1"
     ⟨"image", "http://x", none, none⟩).1⟩

/-! ## Inbound processing order and fault isolation (C9) -/

/-- C9: for every inbound notify message not sent by self, the controller
performs store, plugin dispatch, and webhook delivery exactly once each
and in that order, for every fault environment (so a persistence or
webhook failure never suppresses plugin dispatch and vice versa, and the
handler — all three sub-steps catching internally — always returns);
non-notify batches and self messages are skipped. -/
theorem inbound_processing_order :
    (∀ (m : InboundMessage) (f : MsgFaults),
      (processOneMessage m f).countP (·.isStore) = 1 ∧
      (processOneMessage m f).countP (·.isDispatch) = 1 ∧
      (processOneMessage m f).countP (·.isWebhook) = 1 ∧
      (processOneMessage m f).findIdx (·.isStore) <
        (processOneMessage m f).findIdx (·.isDispatch) ∧
      (processOneMessage m f).findIdx (·.isDispatch) <
        (processOneMessage m f).findIdx (·.isWebhook)) ∧
    (∀ (m : InboundMessage) (f : MsgFaults) (b : Bool),
      (processOneMessage m { f with storeOk := b }).drop 1 =
        (processOneMessage m f).drop 1) ∧
    (∀ (updateType : String) (msgs : List (InboundMessage × MsgFaults)),
      updateType ≠ "notify" → handleMessagesUpsert updateType msgs = []) ∧
    (∀ (m : InboundMessage) (f : MsgFaults), m.fromMe = true →
      handleMessagesUpsert "notify" [(m, f)] = []) ∧
    (∀ (m : InboundMessage) (f : MsgFaults), m.fromMe = false →
      handleMessagesUpsert "notify" [(m, f)] = processOneMessage m f) := by
  refine ⟨?_, ?_, ?_, ?_, ?_⟩
  · intro m f
    refine ⟨?_, ?_, ?_, ?_, ?_⟩ <;>
      simp [processOneMessage, List.countP_cons, List.findIdx_cons,
        ControllerAction.isStore, ControllerAction.isDispatch, ControllerAction.isWebhook]
  · intro m f b
    rfl
  · intro updateType msgs h
    simp [handleMessagesUpsert, h]
  · intro m f hm
    simp [handleMessagesUpsert, hm]
  · intro m f hm
    simp [handleMessagesUpsert, hm]

/-- Witness for the inbound-processing theorem on a concrete message and
fault environment with failing persistence. -/
theorem inbound_processing_order_witness :
    (("status" : String) ≠ "notify") ∧
    handleMessagesUpsert "status" [(⟨"m1", false, "j"⟩, ⟨false, [], []⟩)] = [] ∧
    (⟨"m1", false, "j"⟩ : InboundMessage).fromMe = false ∧
    handleMessagesUpsert "notify" [(⟨"m1", false, "j"⟩, ⟨false, [], []⟩)] =
      processOneMessage ⟨"m1", false, "j"⟩ ⟨false, [], []⟩ :=
  ⟨by decide, inbound_processing_order.2.2.1 "status" _ (by decide), rfl,
   inbound_processing_order.2.2.2.2 ⟨"m1", false, "j"⟩ ⟨false, [], []⟩ rfl⟩

end WhisperApi
